import Mathlib

/-!
Shallow embedding of `my-docker-app/app.js` (an Express + Mongoose quiz
service) and proofs about its request handlers.

JavaScript runtime values reaching the handlers (parsed JSON bodies and the
values built for JSON responses) are modelled by the inductive type `Js`.
Numbers are modelled as integers: every numeric literal in the program
(question ids, option indices, scores) is a small integer, and the only
numeric comparison performed, `sel === q.answerIndex`, agrees with integer
equality on them.  JS objects are modelled as association lists whose keys
are already deduplicated, which is what `JSON.parse` hands to the handlers.
-/

inductive Js where
  | undefined
  | null
  | bool (b : Bool)
  | num (n : Int)
  | str (s : String)
  | arr (elems : List Js)
  | obj (fields : List (String × Js))
  deriving Repr

/-- JS truthiness of a value, as used by `!answers`, `!username`, etc. -/
def Js.truthy : Js → Bool
  | .undefined => false
  | .null => false
  | .bool b => b
  | .num n => n != 0
  | .str s => s != ""
  | .arr _ => true
  | .obj _ => true

/-- The JS `typeof` operator restricted to the values of the model.
`typeof null`, `typeof []` and `typeof {}` are all the string "object". -/
def Js.typeof : Js → String
  | .undefined => "undefined"
  | .null => "object"
  | .bool _ => "boolean"
  | .num _ => "number"
  | .str _ => "string"
  | .arr _ => "object"
  | .obj _ => "object"

/-- Property access `v[i]` with a numeric key `i`, as in `answers[q.id]`:
on an object the key is converted to a string and looked up; on an array it
indexes; on anything else it yields `undefined`. -/
def Js.getIdx : Js → Nat → Js
  | .obj fields, i =>
      match fields.find? (fun p => p.1 == toString i) with
      | some p => p.2
      | none => .undefined
  | .arr elems, i => elems.getD i .undefined
  | _, _ => .undefined

/-- An HTTP response as produced by `res.status(..).json(..)` /
`res.json(..)` (the latter has status 200). -/
structure HttpResponse where
  status : Nat
  body : Js
  deriving Repr

-- ------------------ QUIZ QUESTIONS ------------------

/-- One entry of the `quizQuestions` catalog in app.js: fields `id`, `q`,
`options`, `answerIndex`. -/
structure QuizQuestion where
  id : Nat
  q : String
  options : List String
  answerIndex : Int
  deriving Repr, DecidableEq

/-- The fixed catalog embedded in app.js lines 26-30. -/
def quizQuestions : List QuizQuestion :=
  [ { id := 1, q := "Which piece moves in an L-shape in chess?",
      options := ["Bishop", "Knight", "Rook", "Queen"], answerIndex := 1 },
    { id := 2, q := "How many squares are on a chessboard?",
      options := ["64", "72", "56", "48"], answerIndex := 0 },
    { id := 3, q := "Which piece can castle with the king?",
      options := ["Queen", "Rook", "Bishop", "Knight"], answerIndex := 1 } ]

-- ------------------ APPLICATION STATE ------------------

/-- A document of the `User` collection (`userSchema`, app.js lines 17-21). -/
structure User where
  id : Nat
  username : String
  passwordHash : String
  score : Int
  deriving Repr, DecidableEq

/-- The per-cookie session record written by the handlers
(`req.session.userId / username / score`). -/
structure SessionData where
  userId : Nat
  username : String
  score : Int
  deriving Repr, DecidableEq

/-- The state a single client's request sequence sees: the user collection,
a counter standing in for MongoDB id generation, and the client's session
(`none` when no session fields are set). -/
structure AppState where
  users : List User
  nextId : Nat
  session : Option SessionData
  deriving Repr, DecidableEq

/-- The state of a fresh deployment: empty user collection, no session. -/
def initState : AppState := { users := [], nextId := 1, session := none }

-- ------------------ RESPONSE CONSTANTS ------------------

def unauthorizedResponse : HttpResponse :=
  { status := 401, body := .obj [("error", .str "Unauthorized. Please login.")] }

def invalidCredentialsResponse : HttpResponse :=
  { status := 400, body := .obj [("error", .str "Invalid credentials")] }

-- ------------------ AUTH ROUTES ------------------

/-- POST /api/register (app.js lines 54-71).  `hash` stands for
`bcrypt.hash(password, 10)`.  The `!username || !password` test on the
string fields of the parsed body is string truthiness. -/
def register (hash : String → String) (st : AppState)
    (username password : String) : HttpResponse × AppState :=
  if username == "" || password == "" then
    ({ status := 400, body := .obj [("error", .str "Username and password required")] }, st)
  else if (st.users.find? (fun u => u.username == username)).isSome then
    ({ status := 409, body := .obj [("error", .str "User already exists")] }, st)
  else
    let newUser : User :=
      { id := st.nextId, username := username, passwordHash := hash password, score := 0 }
    ({ status := 200,
       body := .obj [("message", .str "Registered and logged in"), ("username", .str username)] },
     { users := st.users ++ [newUser], nextId := st.nextId + 1,
       session := some { userId := newUser.id, username := newUser.username, score := 0 } })

/-- POST /api/login (app.js lines 74-87).  `compare` stands for
`bcrypt.compare(password, user.passwordHash)`. -/
def login (compare : String → String → Bool) (st : AppState)
    (username password : String) : HttpResponse × AppState :=
  match st.users.find? (fun u => u.username == username) with
  | none => (invalidCredentialsResponse, st)
  | some user =>
      if compare password user.passwordHash then
        ({ status := 200,
           body := .obj [("message", .str "Logged in"), ("username", .str user.username)] },
         { st with session := some { userId := user.id, username := user.username, score := user.score } })
      else
        (invalidCredentialsResponse, st)

/-- POST /api/logout (app.js lines 90-96), on the non-erroring path of
`req.session.destroy`: the session is gone and the cookie cleared. -/
def logout (st : AppState) : HttpResponse × AppState :=
  ({ status := 200, body := .obj [("message", .str "Logged out")] },
   { st with session := none })

/-- GET /api/me (app.js lines 99-102). -/
def me (st : AppState) : HttpResponse :=
  match st.session with
  | none => { status := 200, body := .obj [("authenticated", .bool false)] }
  | some s =>
      { status := 200,
        body := .obj [("authenticated", .bool true), ("username", .str s.username)] }

-- ------------------ QUIZ ROUTES ------------------

/-- The projection `({ id, q, options }) => ({ id, q, options })` of
app.js line 108, producing the JSON entry sent to the client. -/
def questionToJson (qq : QuizQuestion) : Js :=
  .obj [("id", .num qq.id), ("q", .str qq.q),
        ("options", .arr (qq.options.map Js.str))]

/-- The `withoutAnswers` list of app.js line 108. -/
def withoutAnswers : List Js := quizQuestions.map questionToJson

/-- GET /api/quiz/questions (app.js lines 107-110), behind `requireLogin`
(lines 46-49): the session check is `req.session && req.session.userId`. -/
def quizQuestionsRoute (st : AppState) : HttpResponse :=
  match st.session with
  | none => unauthorizedResponse
  | some _ => { status := 200, body := .obj [("questions", .arr withoutAnswers)] }

/-- The body of the `forEach` at app.js lines 119-122: the selection for
question `q` scores iff `typeof sel === 'number' && sel === q.answerIndex`. -/
def selectionScores (answers : Js) (qq : QuizQuestion) : Bool :=
  let sel := answers.getIdx qq.id
  sel.typeof == "number" &&
    (match sel with
     | .num n => n == qq.answerIndex
     | _ => false)

/-- The score accumulated by the `forEach` over `quizQuestions`. -/
def computeScore (answers : Js) : Nat :=
  quizQuestions.countP (selectionScores answers)

/-- The user-collection effect of
`User.updateOne({ _id: req.session.userId }, { score })` (app.js line 125):
every document whose `_id` matches gets the new score (`_id` is the
collection's unique key, so at most one document matches in a reachable
state). -/
def updateScore (users : List User) (uid : Nat) (sc : Int) : List User :=
  users.map (fun u => if u.id == uid then { u with score := sc } else u)

/-- POST /api/quiz/submit (app.js lines 113-129), behind `requireLogin`.
On success the score is written to the user document and to the session. -/
def quizSubmit (st : AppState) (answers : Js) : HttpResponse × AppState :=
  match st.session with
  | none => (unauthorizedResponse, st)
  | some s =>
      if !answers.truthy || answers.typeof != "object" then
        ({ status := 400, body := .obj [("error", .str "Answers required")] }, st)
      else
        let score := computeScore answers
        ({ status := 200,
           body := .obj [("score", .num score), ("total", .num quizQuestions.length),
                         ("message", .str ("You scored " ++ toString score ++ "/" ++
                                           toString quizQuestions.length))] },
         { st with
           users := updateScore st.users s.userId score,
           session := some { s with score := (score : Int) } })

-- ------------------ CONFIGURATION ------------------

/-- The literal argument of `mongoose.connect` at app.js line 12. -/
def mongoUrl : String := "mongodb://host.docker.internal:27017/quizapp"

/-- The connection string handed to the document store as a function of the
process environment: app.js line 12 passes the fixed literal and never
consults `env`. -/
def connectionStringUsed (_env : String → Option String) : String := mongoUrl

/-- The expression `process.env.PORT || 3000` (app.js line 9); the env
value, a string, is falsy exactly when empty. -/
def portConfig (env : String → Option String) : String :=
  match env "PORT" with
  | some v => if v == "" then "3000" else v
  | none => "3000"

/-- The expression `process.env.SESSION_SECRET || 'change_this_secret'`
(app.js line 37). -/
def sessionSecretConfig (env : String → Option String) : String :=
  match env "SESSION_SECRET" with
  | some v => if v == "" then "change_this_secret" else v
  | none => "change_this_secret"

-- ------------------ JSON INSPECTION HELPERS ------------------

/-- Whether a JSON object carries a field of the given name. -/
def Js.hasField : Js → String → Bool
  | .obj fields, name => fields.any (fun p => p.1 == name)
  | _, _ => false

/-- The field names of a JSON object, in order. -/
def Js.fieldNames : Js → List String
  | .obj fields => fields.map (fun p => p.1)
  | _ => []

-- ------------------ CONCRETE STATES FOR INSTANTIATION ------------------

/-- A concrete stored user. -/
def demoUser : User :=
  { id := 1, username := "alice", passwordHash := "hash-alice", score := 0 }

/-- A concrete state in which `demoUser` is registered and logged in. -/
def demoState : AppState :=
  { users := [demoUser], nextId := 2,
    session := some { userId := 1, username := "alice", score := 0 } }

-- ------------------ CLAIM-SIDE AND AUXILIARY DEFINITIONS ------------------

/-- The claim's description of a scoring entry, stated directly on the
submitted mapping (the refinement side of C2): the selection stored under
the key `q.id` is present, is a number, and equals the question's answer
index. -/
def claimedMatch (fs : List (String × Js)) (qq : QuizQuestion) : Bool :=
  match fs.find? (fun p => p.1 == toString qq.id) with
  | some (_, .num n) => n == qq.answerIndex
  | _ => false

/-- Folding a sequence of registration requests over a state. -/
def registerSeq (hash : String → String) (st : AppState) :
    List (String × String) → AppState
  | [] => st
  | (u, p) :: rest => registerSeq hash (register hash st u p).2 rest

/-- The claim's notion of a mapping body: a JSON object from keys to
values (a JSON array is a list, not a mapping from question ids). -/
def isMapping : Js → Bool
  | .obj _ => true
  | _ => false

/-- The session-free requests a caller can issue after a logout, before any
new login or registration. -/
inductive PostLogoutRequest where
  | meReq
  | questionsReq
  | submitReq (answers : Js)
  | logoutReq

/-- One request step for a logged-out-capable caller. -/
def stepRequest (st : AppState) : PostLogoutRequest → HttpResponse × AppState
  | .meReq => (me st, st)
  | .questionsReq => (quizQuestionsRoute st, st)
  | .submitReq answers => quizSubmit st answers
  | .logoutReq => logout st

/-- Running a sequence of such requests. -/
def runRequests (st : AppState) : List PostLogoutRequest → AppState
  | [] => st
  | r :: rest => runRequests (stepRequest st r).2 rest

/-- The claim's words (refinement side of C8): a connection string read
from the environment, with a fixed fallback default when absent. -/
def claimedConnectionString (envVal : Option String) (defaultUrl : String) : String :=
  match envVal with
  | some v => v
  | none => defaultUrl

-- ------------------ C1 ------------------

/-- Claim C1: for every state with an authenticated session, the
GET /api/quiz/questions response is a 200 carrying the catalog entries, and
no entry of the returned questions list has a `correctOptionIndex` or an
`answerIndex` field: the answer key is stripped from every entry. -/
theorem quiz_questions_strips_answer_key (st : AppState)
    (h : st.session.isSome = true) :
    quizQuestionsRoute st =
      { status := 200, body := .obj [("questions", .arr withoutAnswers)] } ∧
    ∀ e ∈ withoutAnswers,
      e.hasField "correctOptionIndex" = false ∧ e.hasField "answerIndex" = false := by
  obtain ⟨s, hs⟩ := Option.isSome_iff_exists.mp h
  refine ⟨?_, by decide⟩
  simp [quizQuestionsRoute, hs]

/-- Witness for C1 at a concrete authenticated state. -/
theorem quiz_questions_strips_answer_key_witness :
    quizQuestionsRoute demoState =
      { status := 200, body := .obj [("questions", .arr withoutAnswers)] } ∧
    ∀ e ∈ withoutAnswers,
      e.hasField "correctOptionIndex" = false ∧ e.hasField "answerIndex" = false :=
  quiz_questions_strips_answer_key demoState rfl

-- ------------------ C9 ------------------

/-- Counterexample to claim C9: the entries returned by
GET /api/quiz/questions do not carry the question text in a field named
`prompt` — no returned entry has a `prompt` field at all; the field names
are `id`, `q`, `options`. -/
theorem quiz_questions_no_prompt_field :
    withoutAnswers.map (fun e => e.hasField "prompt") = [false, false, false] ∧
    withoutAnswers.map Js.fieldNames =
      [["id", "q", "options"], ["id", "q", "options"], ["id", "q", "options"]] := by
  decide

/-- Claim C9 (amended): for every authenticated request to
GET /api/quiz/questions, each entry of the returned questions list has
exactly the fields `id`, `q`, `options` — the question text is carried in a
field named `q`, not `prompt`. -/
theorem quiz_questions_entry_fields (st : AppState)
    (h : st.session.isSome = true) :
    (quizQuestionsRoute st).status = 200 ∧
    (quizQuestionsRoute st).body = .obj [("questions", .arr withoutAnswers)] ∧
    ∀ e ∈ withoutAnswers, e.fieldNames = ["id", "q", "options"] := by
  obtain ⟨s, hs⟩ := Option.isSome_iff_exists.mp h
  refine ⟨?_, ?_, by decide⟩ <;> simp [quizQuestionsRoute, hs]

/-- Witness for the amended C9 at a concrete authenticated state. -/
theorem quiz_questions_entry_fields_witness :
    (quizQuestionsRoute demoState).status = 200 ∧
    (quizQuestionsRoute demoState).body = .obj [("questions", .arr withoutAnswers)] ∧
    ∀ e ∈ withoutAnswers, e.fieldNames = ["id", "q", "options"] :=
  quiz_questions_entry_fields demoState rfl

-- ------------------ C2 ------------------

/-- On an object body the code's scoring test agrees with the claim's
description of a scoring entry. -/
theorem selectionScores_obj (fs : List (String × Js)) (qq : QuizQuestion) :
    selectionScores (.obj fs) qq = claimedMatch fs qq := by
  unfold selectionScores claimedMatch Js.getIdx
  cases h : fs.find? (fun p => p.1 == toString qq.id) with
  | none => simp [h]
  | some p =>
      obtain ⟨k, v⟩ := p
      cases v <;> simp [h, Js.typeof]

/-- Claim C2: for every authenticated submission whose `answers` field is a
mapping, the response is a 200 whose `score` is the count of catalog
questions with a present, numeric, correct selection and whose `total` is
the catalog size; the score never exceeds the catalog size; an empty
mapping scores 0. -/
theorem submit_score_counts_matches (st : AppState) (s : SessionData)
    (fs : List (String × Js)) (hs : st.session = some s) :
    (quizSubmit st (.obj fs)).1 =
      { status := 200,
        body := .obj
          [("score", .num (quizQuestions.countP (claimedMatch fs))),
           ("total", .num quizQuestions.length),
           ("message", .str ("You scored " ++
             toString (quizQuestions.countP (claimedMatch fs)) ++ "/" ++
             toString quizQuestions.length))] } ∧
    quizQuestions.countP (claimedMatch fs) ≤ quizQuestions.length ∧
    (fs = [] → quizQuestions.countP (claimedMatch fs) = 0) := by
  have hcount : computeScore (.obj fs) = quizQuestions.countP (claimedMatch fs) := by
    unfold computeScore
    exact List.countP_congr (fun qq _ => by rw [selectionScores_obj fs qq])
  refine ⟨?_, List.countP_le_length _, ?_⟩
  · simp [quizSubmit, hs, Js.truthy, Js.typeof, hcount]
  · rintro rfl
    decide

/-- Witness for C2: the submission `{"1": 1}` against the fixed catalog. -/
theorem submit_score_counts_matches_witness :
    (quizSubmit demoState (.obj [("1", .num 1)])).1 =
      { status := 200,
        body := .obj
          [("score", .num (quizQuestions.countP (claimedMatch [("1", .num 1)]))),
           ("total", .num quizQuestions.length),
           ("message", .str ("You scored " ++
             toString (quizQuestions.countP (claimedMatch [("1", .num 1)])) ++ "/" ++
             toString quizQuestions.length))] } ∧
    quizQuestions.countP (claimedMatch [("1", .num 1)]) ≤ quizQuestions.length ∧
    ([("1", Js.num 1)] = ([] : List (String × Js)) →
      quizQuestions.countP (claimedMatch [("1", .num 1)]) = 0) :=
  submit_score_counts_matches demoState { userId := 1, username := "alice", score := 0 }
    [("1", .num 1)] rfl

-- ------------------ C3 ------------------

/-- Claim C3: a login for an unknown username and a login whose hash
comparison fails produce the very same response — status 400 with the
identical `Invalid credentials` body — and leave the state unchanged, so
the two failure causes are indistinguishable in the response. -/
theorem login_invalid_credentials_indistinguishable
    (compare : String → String → Bool) (st : AppState) (username password : String) :
    (st.users.find? (fun u => u.username == username) = none →
      login compare st username password = (invalidCredentialsResponse, st)) ∧
    (∀ u, st.users.find? (fun u => u.username == username) = some u →
      compare password u.passwordHash = false →
      login compare st username password = (invalidCredentialsResponse, st)) ∧
    invalidCredentialsResponse.status = 400 := by
  refine ⟨?_, ?_, rfl⟩
  · intro h
    simp [login, h]
  · intro u hu hc
    simp [login, hu, hc]

/-- Witness for C3: unknown username `bob` and wrong password for `alice`
against `demoState` yield the identical response. -/
theorem login_invalid_credentials_indistinguishable_witness :
    login (fun _ _ => false) demoState "bob" "pw" = (invalidCredentialsResponse, demoState) ∧
    login (fun _ _ => false) demoState "alice" "pw" = (invalidCredentialsResponse, demoState) :=
  ⟨(login_invalid_credentials_indistinguishable (fun _ _ => false) demoState "bob" "pw").1 rfl,
   (login_invalid_credentials_indistinguishable (fun _ _ => false) demoState "alice" "pw").2.1
     demoUser rfl rfl⟩

-- ------------------ C4 ------------------

/-- One registration preserves distinctness of the stored usernames. -/
theorem register_preserves_nodup (hash : String → String) (st : AppState)
    (username password : String)
    (h : (st.users.map User.username).Nodup) :
    ((register hash st username password).2.users.map User.username).Nodup := by
  unfold register
  split
  · exact h
  · split
    · exact h
    · rename_i hfound
      have hnone : st.users.find? (fun u => u.username == username) = none := by
        cases hf : st.users.find? (fun u => u.username == username) with
        | none => rfl
        | some u => rw [hf] at hfound; simp at hfound
      have hnotmem : username ∉ st.users.map User.username := by
        intro hmem
        obtain ⟨u, hu, hequ⟩ := List.mem_map.mp hmem
        have hne := List.find?_eq_none.mp hnone u hu
        simp [hequ] at hne
      simp only [List.map_append, List.map_cons, List.map_nil]
      rw [List.nodup_append]
      refine ⟨h, List.nodup_singleton _, ?_⟩
      intro a ha hb
      simp only [List.mem_singleton] at hb
      subst hb
      exact hnotmem ha

/-- Claim C4: registering an already-present username (in a well-formed
request) fails with 409 and creates no user; after any sequence of
registrations from the initial state no two stored users share a username;
registering the same username twice yields success then 409. -/
theorem register_username_unique (hash : String → String) :
    (∀ st username password, username ≠ "" → password ≠ "" →
      (st.users.find? (fun u => u.username == username)).isSome = true →
      (register hash st username password).1.status = 409 ∧
      (register hash st username password).2 = st) ∧
    (∀ ops, ((registerSeq hash initState ops).users.map User.username).Nodup) ∧
    (∀ username password, username ≠ "" → password ≠ "" →
      (register hash initState username password).1.status = 200 ∧
      (register hash (register hash initState username password).2 username password).1.status = 409) := by
  have hseq : ∀ ops st, (st.users.map User.username).Nodup →
      ((registerSeq hash st ops).users.map User.username).Nodup := by
    intro ops
    induction ops with
    | nil => intro st h; exact h
    | cons hd tl ih =>
        intro st h
        obtain ⟨u, p⟩ := hd
        exact ih _ (register_preserves_nodup hash st u p h)
  refine ⟨?_, fun ops => hseq ops initState (by simp [initState]), ?_⟩
  · intro st username password hu hp hfound
    have hcond : (username == "" || password == "") = false := by
      simp only [Bool.or_eq_false_iff, beq_eq_false_iff_ne, ne_eq]
      exact ⟨hu, hp⟩
    constructor <;> simp [register, hcond, hfound]
  · intro username password hu hp
    have hcond : (username == "" || password == "") = false := by
      simp only [Bool.or_eq_false_iff, beq_eq_false_iff_ne, ne_eq]
      exact ⟨hu, hp⟩
    constructor
    · simp [register, hcond, initState]
    · simp [register, hcond, initState, List.find?]

/-- Witness for C4 with the identity standing in for the hash. -/
theorem register_username_unique_witness :
    ((register (fun p => p) demoState "alice" "pw").1.status = 409 ∧
     (register (fun p => p) demoState "alice" "pw").2 = demoState) ∧
    ((registerSeq (fun p => p) initState [("a", "x"), ("a", "y")]).users.map User.username).Nodup ∧
    ((register (fun p => p) initState "alice" "pw").1.status = 200 ∧
     (register (fun p => p) (register (fun p => p) initState "alice" "pw").2 "alice" "pw").1.status = 409) :=
  ⟨(register_username_unique (fun p => p)).1 demoState "alice" "pw" (by decide) (by decide) rfl,
   (register_username_unique (fun p => p)).2.1 [("a", "x"), ("a", "y")],
   (register_username_unique (fun p => p)).2.2 "alice" "pw" (by decide) (by decide)⟩

-- ------------------ C5 ------------------

/-- The score update keeps usernames, so a lookup by username commutes with
it. -/
theorem find?_updateScore (users : List User) (uid : Nat) (sc : Int) (name : String) :
    (updateScore users uid sc).find? (fun u => u.username == name) =
      (users.find? (fun u => u.username == name)).map
        (fun u => if u.id == uid then { u with score := sc } else u) := by
  induction users with
  | nil => rfl
  | cons hd tl ih =>
      have husr : ∀ u : User,
          (if u.id == uid then { u with score := sc } else u).username = u.username := by
        intro u; split <;> rfl
      show List.find? (fun u => u.username == name)
          ((if hd.id == uid then { hd with score := sc } else hd) :: updateScore tl uid sc) =
        Option.map (fun u => if u.id == uid then { u with score := sc } else u)
          (List.find? (fun u => u.username == name) (hd :: tl))
      cases hm : (hd.username == name) with
      | true =>
          rw [List.find?_cons_of_pos (p := fun u : User => u.username == name) _
                (show ((if hd.id == uid then { hd with score := sc } else hd).username == name)
                    = true by rw [husr hd]; exact hm),
              List.find?_cons_of_pos (p := fun u : User => u.username == name) _ hm,
              Option.map_some']
      | false =>
          rw [List.find?_cons_of_neg (p := fun u : User => u.username == name) _
                (show ¬((if hd.id == uid then { hd with score := sc } else hd).username == name)
                    = true by rw [husr hd, hm]; exact Bool.false_ne_true),
              List.find?_cons_of_neg (p := fun u : User => u.username == name) _
                (show ¬(hd.username == name) = true by rw [hm]; exact Bool.false_ne_true),
              ih]

/-- Claim C5: the score computed by a submission is written to the session
(visible to later reads there) and to the stored user document, and it
survives re-login: after submitting, logging out and logging back in with
a succeeding password comparison, the fresh session carries the submitted
score, not a reset to 0. -/
theorem score_survives_relogin
    (compare : String → String → Bool) (st : AppState) (s : SessionData)
    (u : User) (fs : List (String × Js)) (password : String)
    (hs : st.session = some s) (hid : u.id = s.userId)
    (hfind : st.users.find? (fun v => v.username == u.username) = some u)
    (hcmp : compare password u.passwordHash = true) :
    (quizSubmit st (.obj fs)).2.session =
      some { userId := s.userId, username := s.username,
             score := (computeScore (.obj fs) : Int) } ∧
    (login compare (logout (quizSubmit st (.obj fs)).2).2 u.username password).1.status = 200 ∧
    (login compare (logout (quizSubmit st (.obj fs)).2).2 u.username password).2.session =
      some { userId := u.id, username := u.username,
             score := (computeScore (.obj fs) : Int) } := by
  have hst1 : (quizSubmit st (.obj fs)).2 =
      { st with
        users := updateScore st.users s.userId (computeScore (.obj fs)),
        session := some { s with score := (computeScore (.obj fs) : Int) } } := by
    simp [quizSubmit, hs, Js.truthy, Js.typeof]
  have hfind1 :
      (updateScore st.users s.userId (computeScore (.obj fs))).find?
          (fun v => v.username == u.username) =
        some { u with score := (computeScore (.obj fs) : Int) } := by
    rw [find?_updateScore, hfind, Option.map_some']
    simp [hid]
  refine ⟨by rw [hst1], ?_, ?_⟩ <;>
    simp [login, logout, hst1, hfind1, hcmp]

/-- Witness for C5: `alice` submits `{"1": 1}`, logs out, logs back in. -/
theorem score_survives_relogin_witness :
    (quizSubmit demoState (.obj [("1", .num 1)])).2.session =
      some { userId := 1, username := "alice",
             score := (computeScore (.obj [("1", .num 1)]) : Int) } ∧
    (login (fun _ _ => true) (logout (quizSubmit demoState (.obj [("1", .num 1)])).2).2
        "alice" "pw").1.status = 200 ∧
    (login (fun _ _ => true) (logout (quizSubmit demoState (.obj [("1", .num 1)])).2).2
        "alice" "pw").2.session =
      some { userId := 1, username := "alice",
             score := (computeScore (.obj [("1", .num 1)]) : Int) } :=
  score_survives_relogin (fun _ _ => true) demoState
    { userId := 1, username := "alice", score := 0 } demoUser
    [("1", .num 1)] "pw" rfl rfl rfl rfl

-- ------------------ C6 ------------------

/-- Counterexample to claim C6: a JSON array is not a mapping from question
ids to option indices, yet submitting `answers = []` does not yield 400 —
`typeof` classifies arrays as objects, so the handler scores the array
(score 0 here) and records that score in the session and the store. -/
theorem submit_array_passes_validation :
    isMapping (Js.arr []) = false ∧
    (quizSubmit demoState (.arr [])).1.status = 200 ∧
    (quizSubmit demoState (.arr [])).2.session =
      some { userId := 1, username := "alice", score := 0 } :=
  ⟨rfl, rfl, rfl⟩

/-- Claim C6 (amended): an authenticated submission fails with 400 exactly
when `answers` is absent or fails the code's object test — absent, `null`,
a boolean, a number or a string (falsy, or of a `typeof` other than
"object"); JSON arrays pass validation exactly like object mappings. On
the 400 path the state is unchanged: no score is computed or recorded. -/
theorem submit_validation_iff (st : AppState) (s : SessionData) (answers : Js)
    (hs : st.session = some s) :
    ((quizSubmit st answers).1.status = 400 ↔
      (answers.truthy = false ∨ answers.typeof ≠ "object")) ∧
    ((quizSubmit st answers).1.status = 400 → (quizSubmit st answers).2 = st) := by
  cases answers <;> simp [quizSubmit, hs, Js.truthy, Js.typeof]

/-- Witness for the amended C6: `answers = null` is rejected with 400 and
the state is untouched. -/
theorem submit_validation_iff_witness :
    ((quizSubmit demoState Js.null).1.status = 400 ↔
      (Js.null.truthy = false ∨ Js.null.typeof ≠ "object")) ∧
    ((quizSubmit demoState Js.null).1.status = 400 →
      (quizSubmit demoState Js.null).2 = demoState) :=
  submit_validation_iff demoState { userId := 1, username := "alice", score := 0 } Js.null rfl

-- ------------------ C7 ------------------

/-- Claim C7: logout destroys the session; any sequence of session-free
requests keeps it destroyed; and in every session-less state `/api/me`
answers `{authenticated: false}` while both quiz endpoints answer 401, so
a destroyed session is never treated as authenticated. -/
theorem logout_never_authenticated (st : AppState) (reqs : List PostLogoutRequest) :
    (logout st).2.session = none ∧
    (runRequests (logout st).2 reqs).session = none ∧
    (∀ st1 : AppState, st1.session = none →
      me st1 = { status := 200, body := .obj [("authenticated", .bool false)] } ∧
      quizQuestionsRoute st1 = unauthorizedResponse ∧
      (∀ answers, quizSubmit st1 answers = (unauthorizedResponse, st1))) := by
  have hstep : ∀ (st1 : AppState) (r : PostLogoutRequest), st1.session = none →
      (stepRequest st1 r).2.session = none := by
    intro st1 r h1
    cases r <;> simp [stepRequest, me, quizQuestionsRoute, quizSubmit, logout, h1]
  have hrun : ∀ (rs : List PostLogoutRequest) (st1 : AppState), st1.session = none →
      (runRequests st1 rs).session = none := by
    intro rs
    induction rs with
    | nil => intro st1 h1; exact h1
    | cons r rest ih => intro st1 h1; exact ih _ (hstep st1 r h1)
  refine ⟨rfl, hrun reqs (logout st).2 rfl, ?_⟩
  intro st1 h1
  refine ⟨?_, ?_, fun answers => ?_⟩ <;> simp [me, quizQuestionsRoute, quizSubmit, h1]

/-- Witness for C7: `alice` logs out of `demoState`, then issues an
identity check, a questions request and a submission. -/
theorem logout_never_authenticated_witness :
    (runRequests (logout demoState).2
        [.meReq, .questionsReq, .submitReq (.obj [("1", .num 1)])]).session = none ∧
    me (logout demoState).2 =
      { status := 200, body := .obj [("authenticated", .bool false)] } ∧
    quizQuestionsRoute (logout demoState).2 = unauthorizedResponse ∧
    quizSubmit (logout demoState).2 (.obj [("1", .num 1)]) =
      (unauthorizedResponse, (logout demoState).2) :=
  ⟨(logout_never_authenticated demoState
      [.meReq, .questionsReq, .submitReq (.obj [("1", .num 1)])]).2.1,
   ((logout_never_authenticated demoState []).2.2 (logout demoState).2 rfl).1,
   ((logout_never_authenticated demoState []).2.2 (logout demoState).2 rfl).2.1,
   ((logout_never_authenticated demoState []).2.2 (logout demoState).2 rfl).2.2
     (.obj [("1", .num 1)])⟩

-- ------------------ C8 ------------------

/-- Counterexample to claim C8: in an environment that supplies a database
URL for every variable, the connect call still receives the hard-coded
literal — app.js line 12 never consults the environment. -/
theorem connection_string_ignores_env :
    claimedConnectionString (some "mongodb://db.example:27017/quiz") mongoUrl ≠
      connectionStringUsed (fun _ => some "mongodb://db.example:27017/quiz") := by
  decide

/-- Claim C8 (amended): the connection string passed to the document store
is the fixed literal of app.js line 12 in every process environment; the
environment is consulted (with fixed fallback defaults) for the listening
port and the session secret, but never for the connection string. -/
theorem connection_string_constant (env : String → Option String) :
    connectionStringUsed env = "mongodb://host.docker.internal:27017/quizapp" ∧
    (∀ v, env "PORT" = some v → v ≠ "" → portConfig env = v) ∧
    (env "PORT" = none → portConfig env = "3000") ∧
    (∀ v, env "SESSION_SECRET" = some v → v ≠ "" → sessionSecretConfig env = v) ∧
    (env "SESSION_SECRET" = none → sessionSecretConfig env = "change_this_secret") := by
  refine ⟨rfl, ?_, ?_, ?_, ?_⟩
  · intro v hv hne
    simp [portConfig, hv, hne]
  · intro hv
    simp [portConfig, hv]
  · intro v hv hne
    simp [sessionSecretConfig, hv, hne]
  · intro hv
    simp [sessionSecretConfig, hv]

/-- Witness for the amended C8: an environment that sets only `PORT`. -/
theorem connection_string_constant_witness :
    connectionStringUsed (fun k => if k == "PORT" then some "8080" else none) =
      "mongodb://host.docker.internal:27017/quizapp" ∧
    portConfig (fun k => if k == "PORT" then some "8080" else none) = "8080" ∧
    sessionSecretConfig (fun k => if k == "PORT" then some "8080" else none) =
      "change_this_secret" :=
  ⟨(connection_string_constant (fun k => if k == "PORT" then some "8080" else none)).1,
   (connection_string_constant (fun k => if k == "PORT" then some "8080" else none)).2.1
     "8080" rfl (by decide),
   (connection_string_constant (fun k => if k == "PORT" then some "8080" else none)).2.2.2.2
     rfl⟩

-- ------------------ C10 ------------------

/-- Claim C10: a successful submission's write-back touches only the score
field: the collection keeps its length, every document keeps its id,
username and passwordHash, and every document whose id is not the session
user's is entirely unchanged. -/
theorem submit_updates_only_score (st : AppState) (s : SessionData)
    (fs : List (String × Js)) (hs : st.session = some s) :
    (quizSubmit st (.obj fs)).2.users.length = st.users.length ∧
    ∀ (i : Nat) (hi : i < st.users.length)
      (hi1 : i < (quizSubmit st (.obj fs)).2.users.length),
      ((quizSubmit st (.obj fs)).2.users.get ⟨i, hi1⟩).id = (st.users.get ⟨i, hi⟩).id ∧
      ((quizSubmit st (.obj fs)).2.users.get ⟨i, hi1⟩).username
          = (st.users.get ⟨i, hi⟩).username ∧
      ((quizSubmit st (.obj fs)).2.users.get ⟨i, hi1⟩).passwordHash
          = (st.users.get ⟨i, hi⟩).passwordHash ∧
      ((st.users.get ⟨i, hi⟩).id ≠ s.userId →
        (quizSubmit st (.obj fs)).2.users.get ⟨i, hi1⟩ = st.users.get ⟨i, hi⟩) := by
  have husers : (quizSubmit st (.obj fs)).2.users =
      updateScore st.users s.userId (computeScore (.obj fs)) := by
    simp [quizSubmit, hs, Js.truthy, Js.typeof]
  constructor
  · rw [husers]; exact List.length_map _ _
  · intro i hi hi1
    have hget : (quizSubmit st (.obj fs)).2.users.get ⟨i, hi1⟩ =
        (if (st.users.get ⟨i, hi⟩).id == s.userId then
          { st.users.get ⟨i, hi⟩ with score := (computeScore (.obj fs) : Int) }
         else st.users.get ⟨i, hi⟩) := by
      simp only [List.get_eq_getElem, husers, updateScore, List.getElem_map]
    rw [hget]
    by_cases hid : (st.users.get ⟨i, hi⟩).id = s.userId
    · rw [if_pos (show ((st.users.get ⟨i, hi⟩).id == s.userId) = true by
        rw [hid]; exact beq_self_eq_true _)]
      exact ⟨rfl, rfl, rfl, fun hne => absurd hid hne⟩
    · rw [if_neg (show ¬((st.users.get ⟨i, hi⟩).id == s.userId) = true from
        fun hc => hid (eq_of_beq hc))]
      exact ⟨rfl, rfl, rfl, fun _ => rfl⟩

/-- Witness for C10: `alice` submits an empty object against `demoState`. -/
theorem submit_updates_only_score_witness :
    (quizSubmit demoState (.obj [])).2.users.length = demoState.users.length :=
  (submit_updates_only_score demoState { userId := 1, username := "alice", score := 0 }
    [] rfl).1
